import Mathlib

/-!
Verification of the Proxmox VM lifecycle core of `keeb/proxmox-manager`.

Shallow embedding of `src/swamp/extensions/models/lib/proxmox.ts` and
`src/swamp/extensions/models/proxmox_vm.ts`.  Each hypervisor HTTP
interaction is modelled by an explicit environment value describing the
response the hypervisor would give; a `fetchWithCurl` call that throws at
the transport level (curl exit code nonzero) is modelled by the
`Except.error` side of the response field.  Operations return the list of
hypervisor calls they issued together with either a raised error, a normal
completion carrying the resource versions written, or divergence (the
source's unbounded `waitForTask` loop never observing a terminal status).
-/

namespace Proxmox

/-- JS `String.prototype.startsWith`, modelled as character-list prefix.
Used by `getVmIpWithRetry` (`ip["ip-address"].startsWith("127.")`). -/
def jsStartsWith (s p : String) : Bool :=
  p.data.isPrefixOf s.data

/-- JS truthiness of an optional string value: `undefined` (here `none`)
and the empty string are falsy, every other string is truthy. -/
def truthy : Option String → Bool
  | none => false
  | some s => !(s == "")

/-! ### waitForTask (lib/proxmox.ts lines 58-92) -/

/-- One response of the task-status endpoint, as consumed by
`waitForTask`: the HTTP status line, `result.data?.status` and
`result.data?.exitstatus` (absent JSON fields are `none`). -/
structure TaskPollResp where
  ok : Bool
  httpStatus : Nat
  status : Option String
  exitstatus : Option String
deriving Repr, DecidableEq

/-- Result object of `waitForTask`. -/
structure TaskRes where
  success : Bool
  exitstatus : Option String
  pollCount : Nat
deriving Repr, DecidableEq

/-- The polling loop of `waitForTask`, recursing over the successive
responses the task-status endpoint gives.  Returns the number of polls
issued together with `none` when the response trace ends without a
terminal (`"stopped"`) phase — the source loops forever in that case —
or `some` of the raised error / returned result. -/
def waitForTaskGo : Nat → List TaskPollResp → Nat × Option (Except String TaskRes)
  | n, [] => (n, none)
  | n, r :: rest =>
    let n := n + 1
    if r.ok = false then
      (n, some (.error ("Task status check failed: " ++ toString r.httpStatus)))
    else if r.status = some "stopped" then
      (n, some (.ok { success := r.exitstatus == some "OK",
                      exitstatus := r.exitstatus, pollCount := n }))
    else
      waitForTaskGo n rest

/-- `waitForTask(apiUrl, node, upid, ...)`, abstracted over the response
trace of the task's status endpoint. -/
def waitForTask (polls : List TaskPollResp) : Nat × Option (Except String TaskRes) :=
  waitForTaskGo 0 polls

/-! ### resolveAuth (lib/proxmox.ts lines 94-182) -/

/-- `AUTH_TTL_MS = 2 * 60 * 60 * 1000` (2 hours). -/
def AUTH_TTL_MS : Int := 2 * 60 * 60 * 1000

/-- The global arguments `resolveAuth` reads: optional explicit
`ticket`/`csrfToken` override and optional `username`/`password`/`realm`.
`none` models an absent (undefined) field. -/
structure GlobalArgs where
  ticket : Option String
  csrfToken : Option String
  username : Option String
  password : Option String
  realm : Option String
deriving Repr, DecidableEq

/-- The latest on-disk cached auth session, as read by tier 2 of
`resolveAuth`: the parsed `createdAt` timestamp of the highest version's
metadata, and the `ticket`/`csrfToken` of its raw payload. -/
structure CacheEntry where
  createdAtMs : Int
  ticket : String
  csrfToken : String
deriving Repr, DecidableEq

/-- Response of the `POST /api2/json/access/ticket` credential exchange:
HTTP status information, raw body text, and the parsed
`data.ticket` / `data.CSRFPreventionToken` fields. -/
structure PwResp where
  ok : Bool
  httpStatus : Nat
  statusText : String
  bodyText : String
  ticket : String
  csrfToken : String
deriving Repr, DecidableEq

instance instDecEqExcept {α : Type u} {β : Type v} [DecidableEq α] [DecidableEq β] :
    DecidableEq (Except α β) := fun a b =>
  match a, b with
  | .error x, .error y =>
    if h : x = y then .isTrue (congrArg Except.error h)
    else .isFalse (fun he => h (Except.error.inj he))
  | .error _, .ok _ => .isFalse (fun he => Except.noConfusion he)
  | .ok _, .error _ => .isFalse (fun he => Except.noConfusion he)
  | .ok x, .ok y =>
    if h : x = y then .isTrue (congrArg Except.ok h)
    else .isFalse (fun he => h (Except.ok.inj he))

/-- Environment of one `resolveAuth` call: the current time, the latest
readable cached session (`none` when the cache directory read, the
version listing or the `createdAt` parse fails — all swallowed by the
source's try/catch), and what the ticket endpoint would answer. -/
structure AuthEnv where
  nowMs : Int
  cache : Option CacheEntry
  pwResp : Except String PwResp
deriving Repr, DecidableEq

/-- The session object `resolveAuth` returns. -/
structure AuthRes where
  ticket : String
  csrfToken : String
  username : Option String
  source : String
  freshAuth : Bool
deriving Repr, DecidableEq

/-- `username@realm` with the JS default `realm || "pam"`. -/
def principalOf (g : GlobalArgs) : String :=
  (g.username.getD "") ++ "@" ++ (if truthy g.realm then g.realm.getD "" else "pam")

/-- `resolveAuth(globalArgs, context, opts)`.  Returns the resolution
outcome paired with a flag recording whether a network credential
exchange (POST to the ticket endpoint) was performed. -/
def resolveAuth (g : GlobalArgs) (env : AuthEnv) (skipCache : Bool) :
    Except String AuthRes × Bool :=
  if truthy g.ticket && truthy g.csrfToken then
    (.ok { ticket := g.ticket.getD "", csrfToken := g.csrfToken.getD "",
           username := none, source := "explicit", freshAuth := false }, false)
  else
    let cached : Option AuthRes :=
      if skipCache then none
      else
        match env.cache with
        | none => none
        | some e =>
          if env.nowMs - e.createdAtMs < AUTH_TTL_MS then
            some { ticket := e.ticket, csrfToken := e.csrfToken,
                   username := none, source := "cache", freshAuth := false }
          else none
    match cached with
    | some r => (.ok r, false)
    | none =>
      if !(truthy g.username) || !(truthy g.password) then
        (.error ("No auth available: no explicit ticket, no valid cached auth, " ++
                 "and no username/password. Run 'swamp workflow run sync-proxmox-vms " ++
                 "--json' to authenticate via vault."), false)
      else
        match env.pwResp with
        | .error e => (.error ("curl failed: " ++ e), true)
        | .ok r =>
          if r.ok = false then
            (.error ("Authentication failed: " ++ toString r.httpStatus ++ " " ++
                     r.statusText ++ " - " ++ r.bodyText), true)
          else
            (.ok { ticket := r.ticket, csrfToken := r.csrfToken,
                   username := some (principalOf g), source := "password",
                   freshAuth := true }, true)

/-! ### getVmIpWithRetry (lib/proxmox.ts lines 188-222) -/

/-- One entry of a guest-agent interface's `ip-addresses` array. -/
structure IpAddr where
  addrType : String
  addr : String
deriving Repr, DecidableEq

/-- One interface reported by `network-get-interfaces`. -/
structure Iface where
  name : String
  ipAddresses : List IpAddr
deriving Repr, DecidableEq

/-- One response of the guest-agent endpoint: the HTTP ok flag and
`netResult.data?.result || []`. -/
structure AgentResp where
  ok : Bool
  interfaces : List Iface
deriving Repr, DecidableEq

/-- Inner loop of `getVmIpWithRetry` over one interface's `ip-addresses`:
first entry of type `"ipv4"` whose address does not start with `"127."`. -/
def scanIface : List IpAddr → Option String
  | [] => none
  | ip :: rest =>
    if ip.addrType == "ipv4" && !(jsStartsWith ip.addr "127.") then some ip.addr
    else scanIface rest

/-- Outer loop of `getVmIpWithRetry` over the reported interfaces,
skipping interfaces named `"lo"`. -/
def scanInterfaces : List Iface → Option String
  | [] => none
  | i :: rest =>
    if i.name == "lo" then scanInterfaces rest
    else
      match scanIface i.ipAddresses with
      | some a => some a
      | none => scanInterfaces rest

/-- One iteration of the `getVmIpWithRetry` poll loop: the `Date.now()`
reading at the loop-condition check, and what the guest-agent fetch does
this iteration (`Except.error` = thrown transport error, swallowed by the
source's try/catch). -/
structure IpStep where
  now : Int
  resp : Except String AgentResp
deriving Repr, DecidableEq

/-- Environment of one `getVmIpWithRetry` call: `t0` is the `Date.now()`
reading used to compute the deadline, `steps` the observed iterations. -/
structure IpEnv where
  t0 : Int
  steps : List IpStep
deriving Repr, DecidableEq

/-- The poll loop of `getVmIpWithRetry`: returns the discovered address
(or `none`) together with the number of guest-agent queries issued. -/
def getVmIpGo (deadline : Int) : List IpStep → Option String × Nat
  | [] => (none, 0)
  | s :: rest =>
    if s.now < deadline then
      match s.resp with
      | .error _ =>
        let r := getVmIpGo deadline rest
        (r.fst, r.snd + 1)
      | .ok resp =>
        if resp.ok then
          match scanInterfaces resp.interfaces with
          | some a => (some a, 1)
          | none =>
            let r := getVmIpGo deadline rest
            (r.fst, r.snd + 1)
        else
          let r := getVmIpGo deadline rest
          (r.fst, r.snd + 1)
    else (none, 0)

/-- `getVmIpWithRetry(apiUrl, node, vmid, ..., waitSeconds, pollInterval)`;
`deadline = Date.now() + waitSeconds * 1000`.  The poll-interval sleep has
no observable effect beyond the successive `now` readings in `env.steps`. -/
def getVmIpWithRetry (env : IpEnv) (waitSeconds : Int) : Option String × Nat :=
  getVmIpGo (env.t0 + waitSeconds * 1000) env.steps

/-! ### proxmox_vm.ts — data model -/

/-- One entry of the VM list endpoint's `data` array, as consumed by
`resolveVm` and `sync`.  A missing `name` field is modelled by `""`
(both are falsy in JS, which is the only way the source looks at it). -/
structure VmInfo where
  vmid : Nat
  name : String
  status : String
  maxmem : Option Nat
  maxcpu : Option Nat
deriving Repr, DecidableEq

/-- Response of the VM list endpoint. -/
structure ListResp where
  ok : Bool
  httpStatus : Nat
  vms : List VmInfo
deriving Repr, DecidableEq

/-- Response of a mutating endpoint returning a task handle: HTTP status
information, raw body text and the parsed `data` upid string. -/
structure UpidResp where
  ok : Bool
  httpStatus : Nat
  statusText : String
  bodyText : String
  upid : String
deriving Repr, DecidableEq

/-- Response of `GET /api2/json/cluster/nextid` with the parsed id. -/
structure NextIdResp where
  ok : Bool
  httpStatus : Nat
  bodyText : String
  nextVmid : Nat
deriving Repr, DecidableEq

/-- The body of the create POST, i.e. the `URLSearchParams` assembled by
`create` (the `smbios1` base64 serial and the literal `agent=1` /
`scsihw=virtio-scsi-single` constants are carried as written). -/
structure CreateParams where
  vmid : Nat
  name : String
  memory : Nat
  cores : Nat
  sockets : Nat
  ostype : String
  agent : String
  boot : String
  net0 : String
  scsihw : String
  scsi0 : Option String
deriving Repr, DecidableEq

/-- A hypervisor HTTP call issued by a lifecycle operation. -/
inductive Call where
  | listVms
  | startPost (vmid : Nat)
  | stopPost (vmid : Nat)
  | deleteReq (vmid : Nat)
  | taskPoll (upid : String)
  | agentQuery (vmid : Nat)
  | nextId
  | createPost (params : CreateParams)
deriving Repr, DecidableEq

/-- Whether a call mutates hypervisor state (POST/DELETE as opposed to
the GET list, task-status, nextid and guest-agent queries). -/
def Call.isMutation : Call → Bool
  | .startPost _ => true
  | .stopPost _ => true
  | .deleteReq _ => true
  | .createPost _ => true
  | _ => false

/-- Whether a call is a `start` mutation. -/
def Call.isStartPost : Call → Bool
  | .startPost _ => true
  | _ => false

/-- The attributes of one resource version written through
`context.writeResource("vm", name, ...)`.  Fields a given operation does
not include are `none`; the free-text `logs` and `timestamp` fields are
not modelled. -/
structure VmWrite where
  vmid : Nat
  vmName : String
  status : String
  ip : Option String
  success : Option Bool
  wasStarted : Option Bool
  maxmem : Option Nat
  maxcpu : Option Nat
deriving Repr, DecidableEq

/-- Outcome of one lifecycle operation: the hypervisor calls issued, the
resource versions written, and whether it completed, raised, or diverged
inside an unbounded `waitForTask` loop. -/
inductive OpResult where
  | done (calls : List Call) (writes : List VmWrite)
  | fail (calls : List Call) (writes : List VmWrite) (msg : String)
  | diverge (calls : List Call) (writes : List VmWrite)
deriving Repr, DecidableEq

/-- The calls of an operation outcome. -/
def OpResult.calls : OpResult → List Call
  | .done cs _ => cs
  | .fail cs _ _ => cs
  | .diverge cs _ => cs

/-- The resource versions written by an operation outcome. -/
def OpResult.writes : OpResult → List VmWrite
  | .done _ ws => ws
  | .fail _ ws _ => ws
  | .diverge _ ws => ws

/-- Whether the operation raised to the caller. -/
def OpResult.failed : OpResult → Bool
  | .fail _ _ _ => true
  | _ => false

/-- Number of hypervisor `start` mutations an outcome issued. -/
def OpResult.startCount (r : OpResult) : Nat :=
  (r.calls.filter Call.isStartPost).length

/-- Per-call environment of the lifecycle operations: what the
hypervisor answers on each endpoint.  `taskPolls` gives the task-status
response trace per upid, `ipEnvs` the guest-agent environment per vmid.
Auth resolution is modelled separately (`resolveAuth`); the operations
below describe the behaviour after a session has been resolved. -/
structure HyperEnv where
  listResp : Except String ListResp
  startResp : Except String UpidResp
  stopResp : Except String UpidResp
  deleteResp : Except String UpidResp
  nextIdResp : Except String NextIdResp
  createResp : Except String UpidResp
  taskPolls : String → List TaskPollResp
  ipEnvs : Nat → IpEnv

/-! ### resolveVm (proxmox_vm.ts lines 73-96) -/

/-- The record `resolveVm` returns. -/
structure ResolvedVm where
  vmid : Nat
  name : String
  status : String
deriving Repr, DecidableEq

/-- The "not found" message, enumerating the available truthy names. -/
def notFoundMsg (vmName : String) (vms : List VmInfo) : String :=
  "VM \"" ++ vmName ++ "\" not found. Available: " ++
    String.intercalate ", " ((vms.map VmInfo.name).filter (fun n => !(n == "")))

/-- `resolveVm(apiUrl, node, vmName, ...)`: list all VMs and scan for an
exact name match.  The one `listVms` call it issues is accounted for by
each operation below. -/
def resolveVm (env : HyperEnv) (vmName : String) : Except String ResolvedVm :=
  match env.listResp with
  | .error e => .error ("curl failed: " ++ e)
  | .ok r =>
    if r.ok = false then
      .error ("Failed to list VMs: " ++ toString r.httpStatus)
    else
      match r.vms.find? (fun v => v.name == vmName) with
      | none => .error (notFoundMsg vmName r.vms)
      | some v => .ok { vmid := v.vmid, name := v.name, status := v.status }

/-! ### Lifecycle operations (proxmox_vm.ts methods) -/

/-- JS template interpolation of a possibly-undefined string. -/
def jsShow : Option String → String
  | none => "undefined"
  | some s => s

/-- The error `start` raises when the bounded IP wait elapses. -/
def missingIpMsg (vmName : String) (vmid : Nat) (ws : Int) : String :=
  "VM \"" ++ vmName ++ "\" (vmid " ++ toString vmid ++ ") is running but guest " ++
    "agent did not return an IP within " ++ toString ws ++
    "s. Is qemu-guest-agent installed and agent enabled in VM config?"

/-- `stop` (proxmox_vm.ts lines 213-270). -/
def stopOp (env : HyperEnv) (vmName : String) : OpResult :=
  match resolveVm env vmName with
  | .error e => .fail [Call.listVms] [] e
  | .ok vm =>
    if vm.status == "stopped" then
      .done [Call.listVms]
        [{ vmid := vm.vmid, vmName := vm.name, status := "stopped", ip := none,
           success := some true, wasStarted := none, maxmem := none, maxcpu := none }]
    else
      match env.stopResp with
      | .error e => .fail [Call.listVms, Call.stopPost vm.vmid] [] ("curl failed: " ++ e)
      | .ok r =>
        if r.ok = false then
          .fail [Call.listVms, Call.stopPost vm.vmid] []
            ("Failed to stop VM: " ++ toString r.httpStatus ++ " " ++ r.bodyText)
        else
          let wt := waitForTask (env.taskPolls r.upid)
          let trace := [Call.listVms, Call.stopPost vm.vmid] ++
            List.replicate wt.fst (Call.taskPoll r.upid)
          match wt.snd with
          | none => .diverge trace []
          | some (.error e) => .fail trace [] e
          | some (.ok tr) =>
            .done trace
              [{ vmid := vm.vmid, vmName := vm.name, status := "stopped", ip := none,
                 success := some tr.success, wasStarted := none,
                 maxmem := none, maxcpu := none }]

/-- `start` (proxmox_vm.ts lines 151-211).  `waitSeconds` defaults to 120
at the schema layer; the poll interval has no modelled effect. -/
def startOp (env : HyperEnv) (vmName : String) (waitSeconds : Int) : OpResult :=
  match resolveVm env vmName with
  | .error e => .fail [Call.listVms] [] e
  | .ok vm =>
    let ipPhase : List Call → Bool → OpResult := fun pre wasStarted =>
      let r := getVmIpWithRetry (env.ipEnvs vm.vmid) waitSeconds
      let trace := pre ++ List.replicate r.snd (Call.agentQuery vm.vmid)
      if truthy r.fst then
        .done trace
          [{ vmid := vm.vmid, vmName := vm.name, status := "running", ip := r.fst,
             success := none, wasStarted := some wasStarted,
             maxmem := none, maxcpu := none }]
      else
        .fail trace [] (missingIpMsg vmName vm.vmid waitSeconds)
    if vm.status == "stopped" then
      match env.startResp with
      | .error e => .fail [Call.listVms, Call.startPost vm.vmid] [] ("curl failed: " ++ e)
      | .ok r =>
        if r.ok = false then
          .fail [Call.listVms, Call.startPost vm.vmid] []
            ("Failed to start VM: " ++ toString r.httpStatus ++ " " ++ r.bodyText)
        else
          let wt := waitForTask (env.taskPolls r.upid)
          let trace := [Call.listVms, Call.startPost vm.vmid] ++
            List.replicate wt.fst (Call.taskPoll r.upid)
          match wt.snd with
          | none => .diverge trace []
          | some (.error e) => .fail trace [] e
          | some (.ok tr) =>
            if tr.success = false then
              .fail trace [] ("VM start failed: " ++ jsShow tr.exitstatus)
            else
              ipPhase trace true
    else
      ipPhase [Call.listVms] false

/-- Arguments of `create` (defaults are applied inside the method). -/
structure CreateArgs where
  vmName : String
  memory : Option Nat
  cores : Option Nat
  sockets : Option Nat
  diskSize : Option Int
  diskStorage : Option String
  networkBridge : Option String
  osType : Option String
deriving Repr, DecidableEq

/-- The `URLSearchParams` body assembled by `create` (lines 301-319):
`hasDisk = diskSize !== 0`, boot order `"order=net0;scsi0"` with a disk
and `"order=net0"` without, `scsi0` only with a disk. -/
def mkCreateParams (a : CreateArgs) (vmid : Nat) : CreateParams :=
  let hasDisk := !(a.diskSize == some 0)
  { vmid := vmid
    name := a.vmName
    memory := a.memory.getD 2048
    cores := a.cores.getD 2
    sockets := a.sockets.getD 1
    ostype := a.osType.getD "l26"
    agent := "1"
    boot := if hasDisk then "order=net0;scsi0" else "order=net0"
    net0 := "virtio,bridge=" ++ a.networkBridge.getD "vmbr0"
    scsihw := "virtio-scsi-single"
    scsi0 :=
      if hasDisk then
        some ((a.diskStorage.getD "local-lvm") ++ ":" ++
          toString (a.diskSize.getD 32) ++ ",format=raw")
      else none }

/-- `create` (proxmox_vm.ts lines 272-350). -/
def createOp (env : HyperEnv) (a : CreateArgs) : OpResult :=
  match env.nextIdResp with
  | .error e => .fail [Call.nextId] [] ("curl failed: " ++ e)
  | .ok nr =>
    if nr.ok = false then
      .fail [Call.nextId] [] ("Failed to get next VM ID: " ++ nr.bodyText)
    else
      let params := mkCreateParams a nr.nextVmid
      match env.createResp with
      | .error e => .fail [Call.nextId, Call.createPost params] [] ("curl failed: " ++ e)
      | .ok r =>
        if r.ok = false then
          .fail [Call.nextId, Call.createPost params] []
            ("Failed to create VM: " ++ toString r.httpStatus ++ " " ++
              r.statusText ++ " - " ++ r.bodyText)
        else
          let wt := waitForTask (env.taskPolls r.upid)
          let trace := [Call.nextId, Call.createPost params] ++
            List.replicate wt.fst (Call.taskPoll r.upid)
          match wt.snd with
          | none => .diverge trace []
          | some (.error e) => .fail trace [] e
          | some (.ok tr) =>
            if tr.success = false then
              .fail trace [] ("VM creation failed: " ++ jsShow tr.exitstatus)
            else
              .done trace
                [{ vmid := nr.nextVmid, vmName := a.vmName, status := "stopped",
                   ip := none, success := some true, wasStarted := none,
                   maxmem := none, maxcpu := none }]

/-- `delete` (proxmox_vm.ts lines 352-426).  The best-effort stop phase
is wrapped in try/catch in the source: a transport error, a non-2xx stop
response, a task-poll error and a non-"OK" stop exit status are all only
logged, and the delete request is issued regardless. -/
def deleteOp (env : HyperEnv) (vmName : String) : OpResult :=
  match resolveVm env vmName with
  | .error e => .fail [Call.listVms] [] e
  | .ok vm =>
    let stopPhase : Except (List Call) (List Call) :=
      if vm.status == "stopped" then .ok []
      else
        match env.stopResp with
        | .error _ => .ok [Call.stopPost vm.vmid]
        | .ok r =>
          if r.ok = false then .ok [Call.stopPost vm.vmid]
          else
            let wt := waitForTask (env.taskPolls r.upid)
            let cs := [Call.stopPost vm.vmid] ++
              List.replicate wt.fst (Call.taskPoll r.upid)
            match wt.snd with
            | none => .error cs
            | some _ => .ok cs
    match stopPhase with
    | .error cs => .diverge (Call.listVms :: cs) []
    | .ok cs =>
      let pre := Call.listVms :: cs ++ [Call.deleteReq vm.vmid]
      match env.deleteResp with
      | .error e => .fail pre [] ("curl failed: " ++ e)
      | .ok r =>
        if r.ok = false then
          .fail pre [] ("Failed to delete VM: " ++ toString r.httpStatus ++ " " ++ r.bodyText)
        else
          let wt := waitForTask (env.taskPolls r.upid)
          let trace := pre ++ List.replicate wt.fst (Call.taskPoll r.upid)
          match wt.snd with
          | none => .diverge trace []
          | some (.error e) => .fail trace [] e
          | some (.ok tr) =>
            .done trace
              [{ vmid := vm.vmid, vmName := vm.name, status := "deleted", ip := none,
                 success := some tr.success, wasStarted := none,
                 maxmem := none, maxcpu := none }]

/-- The per-VM loop of `sync` (proxmox_vm.ts lines 553-569): IP discovery
with a 5-second window only for running VMs, one resource write per VM,
name falling back to `vm-<vmid>` when the listed name is falsy. -/
def syncGo (env : HyperEnv) : List VmInfo → List Call × List VmWrite
  | [] => ([], [])
  | rv :: rest =>
    let ipq : Option String × Nat :=
      if rv.status == "running" then getVmIpWithRetry (env.ipEnvs rv.vmid) 5
      else (none, 0)
    let vmName := if rv.name == "" then "vm-" ++ toString rv.vmid else rv.name
    let w : VmWrite :=
      { vmid := rv.vmid, vmName := vmName, status := rv.status, ip := ipq.fst,
        success := none, wasStarted := none, maxmem := rv.maxmem, maxcpu := rv.maxcpu }
    let r := syncGo env rest
    (List.replicate ipq.snd (Call.agentQuery rv.vmid) ++ r.fst, w :: r.snd)

/-- `sync` (proxmox_vm.ts lines 523-574). -/
def syncOp (env : HyperEnv) : OpResult :=
  match env.listResp with
  | .error e => .fail [Call.listVms] [] ("curl failed: " ++ e)
  | .ok r =>
    if r.ok = false then
      .fail [Call.listVms] [] ("Failed to list VMs: " ++ toString r.httpStatus)
    else
      let sg := syncGo env r.vms
      .done (Call.listVms :: sg.fst) sg.snd

/-! ### Specification-side notions -/

/-- Rendering of a dotted-quad IPv4 address. -/
def ipv4Render (a b c d : Nat) : String :=
  toString a ++ "." ++ toString b ++ "." ++ toString c ++ "." ++ toString d

/-- The spec's "loopback range": an IPv4 address in 127.0.0.0/8, i.e. a
dotted quad whose first octet is 127. -/
def IsLoopbackIPv4 (s : String) : Prop :=
  ∃ b c d : Nat, b < 256 ∧ c < 256 ∧ d < 256 ∧ s = ipv4Render 127 b c d

/-- The flattened candidate list of one guest-agent response, in scan
order: addresses of type `"ipv4"` not starting with `"127."`, drawn from
the interfaces not named `"lo"`.  The spec's "first non-loopback IPv4
found" is the head of this list. -/
def candidates (l : List Iface) : List String :=
  (l.filter (fun i => !(i.name == "lo"))).flatMap
    (fun i =>
      (i.ipAddresses.filter
        (fun ip => ip.addrType == "ipv4" && !(jsStartsWith ip.addr "127."))).map IpAddr.addr)

/-- Spec reading of a disk-first boot order string: the disk device
(`scsi0`) listed first. -/
def bootDiskFirst (b : String) : Bool :=
  jsStartsWith b "order=scsi0"

/-- Spec reading of a PXE-first boot order string: the network device
(`net0`) listed first. -/
def bootPxeFirst (b : String) : Bool :=
  jsStartsWith b "order=net0"

/-- The resource version `sync` writes for one listed VM. -/
def syncWriteOf (env : HyperEnv) (rv : VmInfo) : VmWrite :=
  { vmid := rv.vmid
    vmName := if rv.name == "" then "vm-" ++ toString rv.vmid else rv.name
    status := rv.status
    ip := if rv.status == "running" then (getVmIpWithRetry (env.ipEnvs rv.vmid) 5).fst else none
    success := none
    wasStarted := none
    maxmem := rv.maxmem
    maxcpu := rv.maxcpu }

/-! ### Concrete fixtures used by witnesses and counterexamples -/

/-- A 2xx mutating-endpoint response carrying task handle `u`. -/
def okUpid (u : String) : UpidResp :=
  { ok := true, httpStatus := 200, statusText := "HTTP/1.1 200 OK", bodyText := "", upid := u }

/-- A 500 mutating-endpoint response. -/
def errUpid : UpidResp :=
  { ok := false, httpStatus := 500, statusText := "HTTP/1.1 500", bodyText := "boom", upid := "" }

/-- A terminal task poll reporting exit status `"OK"`. -/
def pollStopOK : TaskPollResp :=
  { ok := true, httpStatus := 200, status := some "stopped", exitstatus := some "OK" }

/-- A terminal task poll reporting a non-`"OK"` exit status. -/
def pollStopERR : TaskPollResp :=
  { ok := true, httpStatus := 200, status := some "stopped",
    exitstatus := some "command failed with exit code 1" }

/-- A fleet with one running VM named `alpha`. -/
def vmRunning : VmInfo :=
  { vmid := 100, name := "alpha", status := "running", maxmem := none, maxcpu := none }

/-- A fleet with one stopped VM named `alpha`. -/
def vmStopped : VmInfo :=
  { vmid := 100, name := "alpha", status := "stopped", maxmem := none, maxcpu := none }

/-- A guest-agent response reporting a loopback interface and an `eth0`
with one IPv6 and one IPv4 address. -/
def agentRespEth : AgentResp :=
  { ok := true
    interfaces :=
      [{ name := "lo", ipAddresses := [{ addrType := "ipv4", addr := "127.0.0.1" }] },
       { name := "eth0",
         ipAddresses := [{ addrType := "ipv6", addr := "fe80::1" },
                         { addrType := "ipv4", addr := "10.0.0.50" }] }] }

/-- An IP environment whose first poll finds `10.0.0.50`. -/
def ipEnvFound : IpEnv :=
  { t0 := 0, steps := [{ now := 0, resp := .ok agentRespEth }] }

/-- An IP environment with no observed polls. -/
def ipEnvNone : IpEnv :=
  { t0 := 0, steps := [] }

/-- An IP environment with one observed loop check whose clock reading
equals the start time (no time has passed). -/
def ipEnvLate : IpEnv :=
  { t0 := 5, steps := [{ now := 5, resp := .ok agentRespEth }] }

/-- A hypervisor environment where every endpoint answers 2xx, the VM
list is `vms`, every task yields the poll trace `polls`, and every
guest-agent environment is `ipEnv`. -/
def envOf (vms : List VmInfo) (polls : List TaskPollResp) (ipEnv : IpEnv) : HyperEnv :=
  { listResp := .ok { ok := true, httpStatus := 200, vms := vms }
    startResp := .ok (okUpid "Ustart")
    stopResp := .ok (okUpid "Ustop")
    deleteResp := .ok (okUpid "Udel")
    nextIdResp := .ok { ok := true, httpStatus := 200, bodyText := "101", nextVmid := 101 }
    createResp := .ok (okUpid "Ucreate")
    taskPolls := fun _ => polls
    ipEnvs := fun _ => ipEnv }

/-- Environment: one running VM, every awaited task fails. -/
def envTaskFailRunning : HyperEnv :=
  envOf [vmRunning] [pollStopERR] ipEnvNone

/-- Environment: one stopped VM, every awaited task fails. -/
def envTaskFailStopped : HyperEnv :=
  envOf [vmStopped] [pollStopERR] ipEnvNone

/-- A second, stopped VM named `beta`. -/
def vmBeta : VmInfo :=
  { vmid := 101, name := "beta", status := "stopped",
    maxmem := some 2147483648, maxcpu := some 2 }

/-- Environment: a running `alpha` and a stopped `beta`, guest agent
reporting an IP on the first poll. -/
def envSync : HyperEnv :=
  envOf [vmRunning, vmBeta] [] ipEnvFound

/-- Environment: one stopped VM, tasks succeed, guest agent reports an
IP on the first poll (the fixture for the first of two `start` calls). -/
def envStartFirst : HyperEnv :=
  envOf [vmStopped] [pollStopOK] ipEnvFound

/-- Environment: one running VM, tasks succeed, guest agent reports an
IP on the first poll (the fixture for the second of two `start` calls). -/
def envStartSecond : HyperEnv :=
  envOf [vmRunning] [pollStopOK] ipEnvFound

/-- Environment: one running VM whose guest agent never reports an IP. -/
def envRunNoIp : HyperEnv :=
  envOf [vmRunning] [pollStopOK] ipEnvNone

/-- Environment: one running VM whose stop endpoint answers HTTP 500 but
whose delete task succeeds. -/
def envStopFails : HyperEnv :=
  { envOf [vmRunning] [pollStopOK] ipEnvNone with stopResp := .ok errUpid }

/-- The task result produced by awaiting `pollStopERR`. -/
def trFail : TaskRes :=
  { success := false, exitstatus := some "command failed with exit code 1", pollCount := 1 }

/-- A 2xx ticket-endpoint response minting session T2/C2. -/
def pwRespFresh : PwResp :=
  { ok := true, httpStatus := 200, statusText := "HTTP/1.1 200 OK", bodyText := "",
    ticket := "T2", csrfToken := "C2" }

/-- A cached session T/C created at time 0. -/
def cacheEntryTC : CacheEntry :=
  { createdAtMs := 0, ticket := "T", csrfToken := "C" }

/-- Global arguments with password credentials and no explicit override. -/
def gNoOverride : GlobalArgs :=
  { ticket := none, csrfToken := none, username := some "root",
    password := some "pw", realm := none }

/-- Global arguments supplying a ticket but no CSRF token. -/
def gTicketOnly : GlobalArgs :=
  { gNoOverride with ticket := some "TICK" }

/-- Auth environment with a one-second-old cached session. -/
def authEnvCached : AuthEnv :=
  { nowMs := 1000, cache := some cacheEntryTC, pwResp := .ok pwRespFresh }

/-- Auth environment with no readable cache. -/
def authEnvNoCache : AuthEnv :=
  { nowMs := 0, cache := none, pwResp := .ok pwRespFresh }

/-- `create` arguments requesting a 32 GB disk. -/
def createArgsDisk : CreateArgs :=
  { vmName := "gamma", memory := none, cores := none, sockets := none,
    diskSize := some 32, diskStorage := none, networkBridge := none, osType := none }

/-- `create` arguments requesting no disk (PXE-only). -/
def createArgsNoDisk : CreateArgs :=
  { vmName := "gamma", memory := none, cores := none, sockets := none,
    diskSize := some 0, diskStorage := none, networkBridge := none, osType := none }

/-! ## Lemmas -/

lemma jsStartsWith_render127 (b c d : Nat) :
    jsStartsWith (ipv4Render 127 b c d) "127." = true := by
  have h127 : (toString (127 : Nat)) = "127" := by decide
  have hdat : ("127." : String).data = ['1', '2', '7', '.'] := rfl
  unfold jsStartsWith ipv4Render
  rw [h127, hdat]
  simp only [String.data_append, List.isPrefixOf_iff_prefix]
  exact ⟨(toString b).data ++ ['.'] ++ (toString c).data ++ ['.'] ++ (toString d).data,
    by simp⟩

lemma not_loopback_of_not127 {s : String} (h : jsStartsWith s "127." = false) :
    ¬ IsLoopbackIPv4 s := by
  rintro ⟨b, c, d, _, _, _, rfl⟩
  rw [jsStartsWith_render127] at h
  exact Bool.noConfusion h

lemma candidates_not127 {s : String} {l : List Iface} (h : s ∈ candidates l) :
    jsStartsWith s "127." = false := by
  simp only [candidates, List.mem_flatMap, List.mem_filter, List.mem_map] at h
  obtain ⟨i, _, ip, ⟨_, htype⟩, rfl⟩ := h
  simp only [Bool.and_eq_true, Bool.not_eq_eq_eq_not, Bool.not_true] at htype
  exact htype.2

lemma scanIface_eq_head (l : List IpAddr) :
    scanIface l =
      ((l.filter (fun ip => ip.addrType == "ipv4" && !(jsStartsWith ip.addr "127."))).map
        IpAddr.addr).head? := by
  induction l with
  | nil => rfl
  | cons ip rest ih =>
    by_cases h : (ip.addrType == "ipv4" && !(jsStartsWith ip.addr "127.")) = true
    · simp [scanIface, h, List.filter_cons]
    · simp [scanIface, h, List.filter_cons, ih]

lemma scanInterfaces_eq_head (l : List Iface) :
    scanInterfaces l = (candidates l).head? := by
  induction l with
  | nil => rfl
  | cons i rest ih =>
    by_cases h : (i.name == "lo") = true
    · have hc : candidates (i :: rest) = candidates rest := by
        simp [candidates, List.filter_cons, h]
      simp [scanInterfaces, h, hc, ih]
    · have hc : candidates (i :: rest) =
          ((i.ipAddresses.filter
            (fun ip => ip.addrType == "ipv4" && !(jsStartsWith ip.addr "127."))).map
              IpAddr.addr) ++ candidates rest := by
        simp [candidates, List.filter_cons, h]
      rw [scanInterfaces, if_neg (by simpa using h), scanIface_eq_head, hc,
        List.head?_append, ih]
      cases ((i.ipAddresses.filter
          (fun ip => ip.addrType == "ipv4" && !(jsStartsWith ip.addr "127."))).map
            IpAddr.addr).head? <;> simp [Option.or]

lemma getVmIpGo_fst_some {d : Int} {steps : List IpStep} {s : String}
    (h : (getVmIpGo d steps).fst = some s) :
    ∃ st ∈ steps, ∃ resp, st.resp = Except.ok resp ∧ resp.ok = true ∧
      scanInterfaces resp.interfaces = some s := by
  induction steps with
  | nil => simp [getVmIpGo] at h
  | cons st rest ih =>
    rw [getVmIpGo] at h
    by_cases hnow : st.now < d
    · rw [if_pos hnow] at h
      cases hresp : st.resp with
      | error e =>
        rw [hresp] at h
        simp only at h
        obtain ⟨st', hmem, resp, h1, h2, h3⟩ := ih h
        exact ⟨st', List.mem_cons_of_mem _ hmem, resp, h1, h2, h3⟩
      | ok resp =>
        rw [hresp] at h
        by_cases hok : resp.ok = true
        · simp only [hok, if_true] at h
          cases hscan : scanInterfaces resp.interfaces with
          | some a =>
            rw [hscan] at h
            simp only at h
            exact ⟨st, List.mem_cons_self st rest, resp, hresp, hok, by
              rw [hscan, h]⟩
          | none =>
            rw [hscan] at h
            simp only at h
            obtain ⟨st', hmem, resp', h1, h2, h3⟩ := ih h
            exact ⟨st', List.mem_cons_of_mem _ hmem, resp', h1, h2, h3⟩
        · simp only [hok, if_false] at h
          obtain ⟨st', hmem, resp', h1, h2, h3⟩ := ih h
          exact ⟨st', List.mem_cons_of_mem _ hmem, resp', h1, h2, h3⟩
    · rw [if_neg hnow] at h
      simp at h

lemma getVmIpGo_fst_none {d : Int} {steps : List IpStep}
    (h : ∀ st ∈ steps, ∀ resp, st.resp = Except.ok resp → resp.ok = true →
      candidates resp.interfaces = []) :
    (getVmIpGo d steps).fst = none := by
  induction steps with
  | nil => simp [getVmIpGo]
  | cons st rest ih =>
    rw [getVmIpGo]
    by_cases hnow : st.now < d
    · rw [if_pos hnow]
      have ihr := ih (fun st' hm => h st' (List.mem_cons_of_mem _ hm))
      cases hresp : st.resp with
      | error e => simpa using ihr
      | ok resp =>
        by_cases hok : resp.ok = true
        · have hscan : scanInterfaces resp.interfaces = none := by
            rw [scanInterfaces_eq_head, h st (List.mem_cons_self st rest) resp hresp hok]
            rfl
          simp only [hok, if_true, hscan]
          simpa using ihr
        · simp only [hok, if_false]
          simpa using ihr
    · rw [if_neg hnow]

lemma filter_isStartPost_replicate (n : Nat) (c : Call) (h : c.isStartPost = false) :
    (List.replicate n c).filter Call.isStartPost = [] := by
  induction n with
  | zero => rfl
  | succ k ih => simp [List.replicate_succ, List.filter_cons, h, ih]

lemma startOp_filter_startPost (env : HyperEnv) (vmName : String) (ws : Int) :
    ((startOp env vmName ws).calls.filter Call.isStartPost = []) ∨
    (∃ vm, resolveVm env vmName = .ok vm ∧ vm.status = "stopped" ∧
      (startOp env vmName ws).calls.filter Call.isStartPost = [Call.startPost vm.vmid]) := by
  have hag : ∀ m v, (List.replicate m (Call.agentQuery v)).filter Call.isStartPost = [] :=
    fun m v => filter_isStartPost_replicate m _ rfl
  have htp : ∀ m u, (List.replicate m (Call.taskPoll u)).filter Call.isStartPost = [] :=
    fun m u => filter_isStartPost_replicate m _ rfl
  cases hres : resolveVm env vmName with
  | error e =>
    left
    simp [startOp, hres, OpResult.calls, List.filter_cons, Call.isStartPost]
  | ok vm =>
    by_cases hst : (vm.status == "stopped") = true
    · right
      refine ⟨vm, rfl, by simpa using hst, ?_⟩
      cases hsr : env.startResp with
      | error e =>
        simp [startOp, hres, hst, hsr, OpResult.calls, List.filter_cons, Call.isStartPost]
      | ok r =>
        by_cases hrok : r.ok = true
        · rcases hwt : waitForTask (env.taskPolls r.upid) with ⟨n, osnd⟩
          cases osnd with
          | none =>
            simp [startOp, hres, hst, hsr, hrok, hwt, OpResult.calls,
              List.filter_append, List.filter_cons, Call.isStartPost, htp]
          | some ex =>
            cases ex with
            | error e =>
              simp [startOp, hres, hst, hsr, hrok, hwt, OpResult.calls,
                List.filter_append, List.filter_cons, Call.isStartPost, htp]
            | ok tr =>
              by_cases hsucc : tr.success = false
              · simp [startOp, hres, hst, hsr, hrok, hwt, hsucc, OpResult.calls,
                  List.filter_append, List.filter_cons, Call.isStartPost, htp]
              · by_cases hip : truthy (getVmIpWithRetry (env.ipEnvs vm.vmid) ws).fst = true
                · simp [startOp, hres, hst, hsr, hrok, hwt, hsucc, hip, OpResult.calls,
                    List.filter_append, List.filter_cons, Call.isStartPost, htp, hag]
                · simp [startOp, hres, hst, hsr, hrok, hwt, hsucc, hip, OpResult.calls,
                    List.filter_append, List.filter_cons, Call.isStartPost, htp, hag]
        · simp [startOp, hres, hst, hsr, hrok, OpResult.calls,
            List.filter_cons, Call.isStartPost]
    · left
      by_cases hip : truthy (getVmIpWithRetry (env.ipEnvs vm.vmid) ws).fst = true
      · simp [startOp, hres, hst, hip, OpResult.calls, List.filter_append,
          List.filter_cons, Call.isStartPost, hag]
      · simp [startOp, hres, hst, hip, OpResult.calls, List.filter_append,
          List.filter_cons, Call.isStartPost, hag]

/-! ## Claims -/

/-- C7: IP discovery never returns a loopback address (an IPv4 in
127.0.0.0/8) and never one drawn from an interface named "lo"; any
address it returns is the first non-loopback IPv4 found in some
successful guest-agent response (the head of `candidates`, which ranges
only over interfaces not named "lo" and addresses of type ipv4 outside
the 127. prefix); and if no in-window successful response has a
candidate, it returns null. -/
theorem C7_ip_discovery_never_loopback (env : IpEnv) (waitSeconds : Int) :
    (∀ s n, getVmIpWithRetry env waitSeconds = (some s, n) →
      jsStartsWith s "127." = false ∧ ¬ IsLoopbackIPv4 s ∧
      ∃ st ∈ env.steps, ∃ resp, st.resp = Except.ok resp ∧ resp.ok = true ∧
        (candidates resp.interfaces).head? = some s) ∧
    ((∀ st ∈ env.steps, ∀ resp, st.resp = Except.ok resp → resp.ok = true →
        candidates resp.interfaces = []) →
      (getVmIpWithRetry env waitSeconds).fst = none) := by
  constructor
  · intro s n h
    have hfst : (getVmIpGo (env.t0 + waitSeconds * 1000) env.steps).fst = some s := by
      rw [show getVmIpGo (env.t0 + waitSeconds * 1000) env.steps =
        getVmIpWithRetry env waitSeconds from rfl, h]
    obtain ⟨st, hmem, resp, h1, h2, h3⟩ := getVmIpGo_fst_some hfst
    rw [scanInterfaces_eq_head] at h3
    have hs : s ∈ candidates resp.interfaces :=
      List.mem_of_mem_head? (Option.mem_def.mpr h3)
    have h127 := candidates_not127 hs
    exact ⟨h127, not_loopback_of_not127 h127, st, hmem, resp, h1, h2, h3⟩
  · intro h
    exact getVmIpGo_fst_none h

/-- C7 witness: on a concrete trace reporting a loopback interface and an
eth0 with an IPv6 and the IPv4 10.0.0.50, discovery returns 10.0.0.50,
which is non-loopback and the first candidate. -/
theorem C7_ip_discovery_never_loopback_witness :
    jsStartsWith "10.0.0.50" "127." = false ∧ ¬ IsLoopbackIPv4 "10.0.0.50" ∧
    ∃ st ∈ ipEnvFound.steps, ∃ resp, st.resp = Except.ok resp ∧ resp.ok = true ∧
      (candidates resp.interfaces).head? = some "10.0.0.50" :=
  (C7_ip_discovery_never_loopback ipEnvFound 120).1 "10.0.0.50" 1 (by decide)

/-- C10: with a zero or negative wait window and a clock that never runs
backwards past the deadline computation, IP discovery returns null after
zero guest-agent queries (the deadline check precedes the first poll);
consequently a `start` invocation with `waitSeconds` 0 on a running VM
raises the missing-IP error. -/
theorem C10_zero_wait_raises (ipEnv : IpEnv) (env : HyperEnv) (vmName : String)
    (vm : ResolvedVm) (ws : Int)
    (hws : ws ≤ 0) (hmono : ∀ st ∈ ipEnv.steps, ipEnv.t0 ≤ st.now) :
    getVmIpWithRetry ipEnv ws = (none, 0) ∧
    (resolveVm env vmName = .ok vm → vm.status = "running" →
      env.ipEnvs vm.vmid = ipEnv →
      startOp env vmName ws = .fail [Call.listVms] [] (missingIpMsg vmName vm.vmid ws)) := by
  have hip : getVmIpWithRetry ipEnv ws = (none, 0) := by
    unfold getVmIpWithRetry
    cases hsteps : ipEnv.steps with
    | nil => rfl
    | cons st rest =>
      have hst := hmono st (by rw [hsteps]; exact List.mem_cons_self st rest)
      have hnot : ¬ (st.now < ipEnv.t0 + ws * 1000) := by omega
      rw [getVmIpGo, if_neg hnot]
  refine ⟨hip, fun hres hrun hipenv => ?_⟩
  simp [startOp, hres, hrun, hipenv, hip, truthy]

/-- C10 witness: concrete clock at the deadline with `waitSeconds` 0 — no
query, null result, and `start` on the running VM `alpha` raises the
missing-IP error. -/
theorem C10_zero_wait_raises_witness :
    getVmIpWithRetry ipEnvLate 0 = (none, 0) ∧
    startOp (envOf [vmRunning] [pollStopOK] ipEnvLate) "alpha" 0 =
      .fail [Call.listVms] [] (missingIpMsg "alpha" 100 0) :=
  ⟨(C10_zero_wait_raises ipEnvLate (envOf [vmRunning] [pollStopOK] ipEnvLate) "alpha"
      { vmid := 100, name := "alpha", status := "running" } 0 (by decide) (by decide)).1,
   (C10_zero_wait_raises ipEnvLate (envOf [vmRunning] [pollStopOK] ipEnvLate) "alpha"
      { vmid := 100, name := "alpha", status := "running" } 0 (by decide) (by decide)).2
     (by decide) rfl rfl⟩

/-- C3: when no explicit ticket-and-CSRF pair is supplied, `skipCache` is
not set, and the most recent cached session's age is strictly below the
2-hour TTL, auth resolution returns the cached ticket and CSRF token with
source "cache" and performs no network credential exchange (the POST flag
is false). -/
theorem C3_auth_cache_hit (g : GlobalArgs) (env : AuthEnv) (e : CacheEntry)
    (hx : (truthy g.ticket && truthy g.csrfToken) = false)
    (hc : env.cache = some e)
    (hfresh : env.nowMs - e.createdAtMs < AUTH_TTL_MS) :
    resolveAuth g env false =
      (Except.ok { ticket := e.ticket, csrfToken := e.csrfToken, username := none,
                   source := "cache", freshAuth := false }, false) := by
  simp [resolveAuth, hx, hc, hfresh]

/-- C3 witness: with no explicit credentials and a one-second-old cached
session, resolution returns the cached session without a POST. -/
theorem C3_auth_cache_hit_witness :
    resolveAuth gNoOverride authEnvCached false =
      (Except.ok { ticket := "T", csrfToken := "C", username := none,
                   source := "cache", freshAuth := false }, false) :=
  C3_auth_cache_hit gNoOverride authEnvCached cacheEntryTC (by decide) rfl (by decide)

/-- C9: supplying an explicit ticket without a CSRF token, or a CSRF
token without a ticket, is silently ignored: resolution behaves exactly
as if neither had been supplied, falling through to the cache and
password tiers, so the partial credential is never used and no error is
raised for the inconsistent input. -/
theorem C9_partial_override_ignored (g : GlobalArgs) (env : AuthEnv) (skipCache : Bool)
    (h : truthy g.ticket = true ∧ truthy g.csrfToken = false ∨
         truthy g.ticket = false ∧ truthy g.csrfToken = true) :
    resolveAuth g env skipCache =
      resolveAuth { g with ticket := none, csrfToken := none } env skipCache := by
  have hn : truthy none = false := rfl
  obtain ⟨h1, h2⟩ | ⟨h1, h2⟩ := h <;>
    simp [resolveAuth, h1, h2, hn, principalOf]

/-- C9 witness: an explicit ticket with no CSRF token resolves exactly as
if no override had been supplied. -/
theorem C9_partial_override_ignored_witness :
    resolveAuth gTicketOnly authEnvNoCache false =
      resolveAuth { gTicketOnly with ticket := none, csrfToken := none }
        authEnvNoCache false :=
  C9_partial_override_ignored gTicketOnly authEnvNoCache false
    (Or.inl ⟨by decide, by decide⟩)

/-- C5: `stop` on a VM whose resolved status is "stopped" issues no
hypervisor mutation call and no task poll (its only call is the listing
GET used to resolve the VM), yet completes writing a successful resource
version with status "stopped", success true and ip null. -/
theorem C5_stop_already_stopped (env : HyperEnv) (vmName : String) (vm : ResolvedVm)
    (hres : resolveVm env vmName = .ok vm) (hst : vm.status = "stopped") :
    stopOp env vmName =
      OpResult.done [Call.listVms]
        [{ vmid := vm.vmid, vmName := vm.name, status := "stopped", ip := none,
           success := some true, wasStarted := none, maxmem := none, maxcpu := none }] ∧
    (stopOp env vmName).calls.filter Call.isMutation = [] ∧
    ∀ u, Call.taskPoll u ∉ (stopOp env vmName).calls := by
  have h : stopOp env vmName =
      OpResult.done [Call.listVms]
        [{ vmid := vm.vmid, vmName := vm.name, status := "stopped", ip := none,
           success := some true, wasStarted := none, maxmem := none, maxcpu := none }] := by
    simp [stopOp, hres, hst]
  refine ⟨h, ?_, ?_⟩
  · rw [h]
    rfl
  · intro u
    rw [h]
    simp [OpResult.calls]

/-- C5 witness: stopping the already-stopped VM `alpha` issues only the
list call and writes a success version. -/
theorem C5_stop_already_stopped_witness :
    stopOp (envOf [vmStopped] [] ipEnvNone) "alpha" =
      OpResult.done [Call.listVms]
        [{ vmid := 100, vmName := "alpha", status := "stopped", ip := none,
           success := some true, wasStarted := none, maxmem := none, maxcpu := none }] ∧
    (stopOp (envOf [vmStopped] [] ipEnvNone) "alpha").calls.filter Call.isMutation = [] ∧
    ∀ u, Call.taskPoll u ∉ (stopOp (envOf [vmStopped] [] ipEnvNone) "alpha").calls :=
  C5_stop_already_stopped (envOf [vmStopped] [] ipEnvNone) "alpha"
    { vmid := 100, name := "alpha", status := "stopped" } (by decide) rfl

/-- C1 counterexample: when the awaited stop task reports the non-"OK"
exit status "command failed with exit code 1", `stop` does not fail — it
completes normally and persists a resource version (with success false)
for the current attempt, contradicting the claim that every lifecycle
operation raises and writes no version on a non-"OK" exit status. -/
theorem C1_counterexample :
    (waitForTask (envTaskFailRunning.taskPolls "Ustop")).snd =
      some (Except.ok trFail) ∧
    trFail.exitstatus ≠ some "OK" ∧
    OpResult.failed (stopOp envTaskFailRunning "alpha") = false ∧
    OpResult.writes (stopOp envTaskFailRunning "alpha") =
      [{ vmid := 100, vmName := "alpha", status := "stopped", ip := none,
         success := some false, wasStarted := none, maxmem := none, maxcpu := none }] :=
  ⟨rfl, by decide, rfl, rfl⟩

/-- C1 amended: on a non-"OK" task exit status, `start` and `create`
fail fatally (raising an error carrying the raw exit status) and write no
resource version for the current attempt; `stop` and `delete` do not
raise — they complete normally and persist a resource version recording
success false (status "stopped" resp. "deleted"). -/
theorem C1_task_failure_fatal_only_for_start_create (env : HyperEnv) :
    (∀ vmName ws vm r n tr, resolveVm env vmName = .ok vm → vm.status = "stopped" →
      env.startResp = .ok r → r.ok = true →
      waitForTask (env.taskPolls r.upid) = (n, some (.ok tr)) → tr.success = false →
      startOp env vmName ws =
        .fail ([Call.listVms, Call.startPost vm.vmid] ++
            List.replicate n (Call.taskPoll r.upid)) []
          ("VM start failed: " ++ jsShow tr.exitstatus)) ∧
    (∀ a nr r n tr, env.nextIdResp = .ok nr → nr.ok = true →
      env.createResp = .ok r → r.ok = true →
      waitForTask (env.taskPolls r.upid) = (n, some (.ok tr)) → tr.success = false →
      createOp env a =
        .fail ([Call.nextId, Call.createPost (mkCreateParams a nr.nextVmid)] ++
            List.replicate n (Call.taskPoll r.upid)) []
          ("VM creation failed: " ++ jsShow tr.exitstatus)) ∧
    (∀ vmName vm r n tr, resolveVm env vmName = .ok vm → vm.status ≠ "stopped" →
      env.stopResp = .ok r → r.ok = true →
      waitForTask (env.taskPolls r.upid) = (n, some (.ok tr)) → tr.success = false →
      stopOp env vmName =
        .done ([Call.listVms, Call.stopPost vm.vmid] ++
            List.replicate n (Call.taskPoll r.upid))
          [{ vmid := vm.vmid, vmName := vm.name, status := "stopped", ip := none,
             success := some false, wasStarted := none, maxmem := none, maxcpu := none }]) ∧
    (∀ vmName vm r n tr, resolveVm env vmName = .ok vm → vm.status = "stopped" →
      env.deleteResp = .ok r → r.ok = true →
      waitForTask (env.taskPolls r.upid) = (n, some (.ok tr)) → tr.success = false →
      deleteOp env vmName =
        .done ([Call.listVms, Call.deleteReq vm.vmid] ++
            List.replicate n (Call.taskPoll r.upid))
          [{ vmid := vm.vmid, vmName := vm.name, status := "deleted", ip := none,
             success := some false, wasStarted := none, maxmem := none, maxcpu := none }]) := by
  refine ⟨?_, ?_, ?_, ?_⟩
  · intro vmName ws vm r n tr hres hst hr hok hw hfail
    simp [startOp, hres, hst, hr, hok, hw, hfail]
  · intro a nr r n tr hnr hnok hr hok hw hfail
    simp [createOp, hnr, hnok, hr, hok, hw, hfail]
  · intro vmName vm r n tr hres hst hr hok hw hfail
    simp [stopOp, hres, hst, hr, hok, hw, hfail]
  · intro vmName vm r n tr hres hst hr hok hw hfail
    simp [deleteOp, hres, hst, hr, hok, hw, hfail]

/-- C1 witness: at concrete environments with a failing task, `start`
raises "VM start failed" writing nothing, and `stop` completes writing a
success-false version. -/
theorem C1_task_failure_fatal_only_for_start_create_witness :
    startOp envTaskFailStopped "alpha" 120 =
      .fail ([Call.listVms, Call.startPost 100] ++
          List.replicate 1 (Call.taskPoll "Ustart")) []
        ("VM start failed: " ++ jsShow trFail.exitstatus) ∧
    stopOp envTaskFailRunning "alpha" =
      .done ([Call.listVms, Call.stopPost 100] ++
          List.replicate 1 (Call.taskPoll "Ustop"))
        [{ vmid := 100, vmName := "alpha", status := "stopped", ip := none,
           success := some false, wasStarted := none, maxmem := none, maxcpu := none }] :=
  ⟨(C1_task_failure_fatal_only_for_start_create envTaskFailStopped).1 "alpha" 120
      { vmid := 100, name := "alpha", status := "stopped" } (okUpid "Ustart") 1 trFail
      (by decide) rfl rfl rfl (by decide) rfl,
   (C1_task_failure_fatal_only_for_start_create envTaskFailRunning).2.2.1 "alpha"
      { vmid := 100, name := "alpha", status := "running" } (okUpid "Ustop") 1 trFail
      (by decide) (by decide) rfl rfl (by decide) rfl⟩

/-- C2 counterexample: a create invocation requesting a 32 GB disk sends
boot order "order=net0;scsi0" to the hypervisor — the PXE device first,
not disk-first as the claim states for a nonzero disk size. -/
theorem C2_counterexample :
    (mkCreateParams createArgsDisk 101).boot = "order=net0;scsi0" ∧
    bootDiskFirst (mkCreateParams createArgsDisk 101).boot = false ∧
    bootPxeFirst (mkCreateParams createArgsDisk 101).boot = true ∧
    createOp (envOf [] [pollStopOK] ipEnvNone) createArgsDisk =
      OpResult.done
        [Call.nextId, Call.createPost (mkCreateParams createArgsDisk 101),
         Call.taskPoll "Ucreate"]
        [{ vmid := 101, vmName := "gamma", status := "stopped", ip := none,
           success := some true, wasStarted := none, maxmem := none, maxcpu := none }] :=
  ⟨rfl, by decide, by decide, by decide⟩

/-- C2 amended: every successful create requests a PXE-first boot order —
"order=net0" (PXE only) when the requested disk size is 0 and
"order=net0;scsi0" (PXE first, then disk) otherwise, never disk-first —
and persists a resource version recording the VM stopped (status
"stopped", success true, ip null). -/
theorem C2_create_boot_order_pxe_first (env : HyperEnv) (a : CreateArgs)
    (nr : NextIdResp) (r : UpidResp) (n : Nat) (tr : TaskRes)
    (hnr : env.nextIdResp = .ok nr) (hnok : nr.ok = true)
    (hr : env.createResp = .ok r) (hok : r.ok = true)
    (hw : waitForTask (env.taskPolls r.upid) = (n, some (.ok tr)))
    (hsucc : tr.success = true) :
    (mkCreateParams a nr.nextVmid).boot =
      (if a.diskSize == some 0 then "order=net0" else "order=net0;scsi0") ∧
    bootPxeFirst (mkCreateParams a nr.nextVmid).boot = true ∧
    bootDiskFirst (mkCreateParams a nr.nextVmid).boot = false ∧
    createOp env a =
      OpResult.done
        ([Call.nextId, Call.createPost (mkCreateParams a nr.nextVmid)] ++
          List.replicate n (Call.taskPoll r.upid))
        [{ vmid := nr.nextVmid, vmName := a.vmName, status := "stopped", ip := none,
           success := some true, wasStarted := none, maxmem := none, maxcpu := none }] := by
  refine ⟨?_, ?_, ?_, ?_⟩
  · cases hx : (a.diskSize == some 0) <;> simp [mkCreateParams, hx]
  · cases hx : (a.diskSize == some 0) <;> simp [mkCreateParams, hx] <;> decide
  · cases hx : (a.diskSize == some 0) <;> simp [mkCreateParams, hx] <;> decide
  · simp [createOp, hnr, hnok, hr, hok, hw, hsucc]

/-- C2 witness: concrete PXE-only create (disk size 0) applied through
the amended theorem. -/
theorem C2_create_boot_order_pxe_first_witness :
    (mkCreateParams createArgsNoDisk 101).boot =
      (if createArgsNoDisk.diskSize == some 0 then "order=net0" else "order=net0;scsi0") ∧
    bootPxeFirst (mkCreateParams createArgsNoDisk 101).boot = true ∧
    bootDiskFirst (mkCreateParams createArgsNoDisk 101).boot = false ∧
    createOp (envOf [] [pollStopOK] ipEnvNone) createArgsNoDisk =
      OpResult.done
        ([Call.nextId, Call.createPost (mkCreateParams createArgsNoDisk 101)] ++
          List.replicate 1 (Call.taskPoll "Ucreate"))
        [{ vmid := 101, vmName := "gamma", status := "stopped", ip := none,
           success := some true, wasStarted := none, maxmem := none, maxcpu := none }] :=
  C2_create_boot_order_pxe_first (envOf [] [pollStopOK] ipEnvNone) createArgsNoDisk
    { ok := true, httpStatus := 200, bodyText := "101", nextVmid := 101 }
    (okUpid "Ucreate") 1
    { success := true, exitstatus := some "OK", pollCount := 1 }
    rfl rfl rfl rfl (by decide) rfl

/-- C6: deleting a VM that is not stopped when the best-effort stop phase
fails — either the stop POST raises at the transport level or answers
non-2xx — swallows the stop failure, still issues the delete request, and
on a successful delete task completes with a persisted resource version
recording status "deleted" and success true. -/
theorem C6_delete_swallows_stop_failure (env : HyperEnv) (vmName : String)
    (vm : ResolvedVm) (rd : UpidResp) (n : Nat) (tr : TaskRes)
    (hres : resolveVm env vmName = .ok vm) (hst : vm.status ≠ "stopped")
    (hstop : (∃ e, env.stopResp = Except.error e) ∨
             ∃ r, env.stopResp = Except.ok r ∧ r.ok = false)
    (hdel : env.deleteResp = .ok rd) (hdok : rd.ok = true)
    (hw : waitForTask (env.taskPolls rd.upid) = (n, some (.ok tr)))
    (hsucc : tr.success = true) :
    deleteOp env vmName =
      OpResult.done
        ([Call.listVms, Call.stopPost vm.vmid, Call.deleteReq vm.vmid] ++
          List.replicate n (Call.taskPoll rd.upid))
        [{ vmid := vm.vmid, vmName := vm.name, status := "deleted", ip := none,
           success := some true, wasStarted := none, maxmem := none, maxcpu := none }] ∧
    OpResult.failed (deleteOp env vmName) = false ∧
    Call.deleteReq vm.vmid ∈ (deleteOp env vmName).calls := by
  have h : deleteOp env vmName =
      OpResult.done
        ([Call.listVms, Call.stopPost vm.vmid, Call.deleteReq vm.vmid] ++
          List.replicate n (Call.taskPoll rd.upid))
        [{ vmid := vm.vmid, vmName := vm.name, status := "deleted", ip := none,
           success := some true, wasStarted := none, maxmem := none, maxcpu := none }] := by
    obtain ⟨e, he⟩ | ⟨r, hr, hrok⟩ := hstop
    · simp [deleteOp, hres, hst, he, hdel, hdok, hw, hsucc]
    · simp [deleteOp, hres, hst, hr, hrok, hdel, hdok, hw, hsucc]
  refine ⟨h, by rw [h]; rfl, by rw [h]; simp [OpResult.calls]⟩

/-- C6 witness: deleting running VM `alpha` whose stop POST answers HTTP
500 — the failure is swallowed, the delete proceeds and succeeds. -/
theorem C6_delete_swallows_stop_failure_witness :
    deleteOp envStopFails "alpha" =
      OpResult.done
        ([Call.listVms, Call.stopPost 100, Call.deleteReq 100] ++
          List.replicate 1 (Call.taskPoll "Udel"))
        [{ vmid := 100, vmName := "alpha", status := "deleted", ip := none,
           success := some true, wasStarted := none, maxmem := none, maxcpu := none }] ∧
    OpResult.failed (deleteOp envStopFails "alpha") = false ∧
    Call.deleteReq 100 ∈ (deleteOp envStopFails "alpha").calls :=
  C6_delete_swallows_stop_failure envStopFails "alpha"
    { vmid := 100, name := "alpha", status := "running" } (okUpid "Udel") 1
    { success := true, exitstatus := some "OK", pollCount := 1 }
    (by decide) (by decide) (Or.inr ⟨errUpid, rfl, rfl⟩) rfl rfl (by decide) rfl

/-- C4: `start` issues a hypervisor start mutation only when the resolved
status is "stopped" (so any single call issues at most one, a call on a
running VM issues none yet still performs the bounded guest-agent IP
wait, and two consecutive calls whose first reaches Running issue at most
one start mutation in total); and when the IP wait elapses with no IP on
a running VM, `start` raises the missing-IP error. -/
theorem C4_start_mutation_only_when_stopped :
    (∀ env vmName ws, OpResult.startCount (startOp env vmName ws) ≤ 1) ∧
    (∀ env vmName ws, 0 < OpResult.startCount (startOp env vmName ws) →
      ∃ vm, resolveVm env vmName = .ok vm ∧ vm.status = "stopped") ∧
    (∀ env vmName ws vm, resolveVm env vmName = .ok vm → vm.status = "running" →
      OpResult.startCount (startOp env vmName ws) = 0 ∧
      (startOp env vmName ws).calls =
        [Call.listVms] ++
          List.replicate (getVmIpWithRetry (env.ipEnvs vm.vmid) ws).snd
            (Call.agentQuery vm.vmid)) ∧
    (∀ env1 env2 vmName ws1 ws2 vm2, resolveVm env2 vmName = .ok vm2 →
      vm2.status = "running" →
      OpResult.startCount (startOp env1 vmName ws1) +
        OpResult.startCount (startOp env2 vmName ws2) ≤ 1) ∧
    (∀ env vmName ws vm, resolveVm env vmName = .ok vm → vm.status = "running" →
      (getVmIpWithRetry (env.ipEnvs vm.vmid) ws).fst = none →
      startOp env vmName ws =
        .fail ([Call.listVms] ++
          List.replicate (getVmIpWithRetry (env.ipEnvs vm.vmid) ws).snd
            (Call.agentQuery vm.vmid)) [] (missingIpMsg vmName vm.vmid ws)) := by
  have h1 : ∀ env vmName ws, OpResult.startCount (startOp env vmName ws) ≤ 1 := by
    intro env vmName ws
    rcases startOp_filter_startPost env vmName ws with h | ⟨vm, _, _, h⟩ <;>
      simp [OpResult.startCount, h]
  have h3 : ∀ env vmName ws vm, resolveVm env vmName = .ok vm → vm.status = "running" →
      OpResult.startCount (startOp env vmName ws) = 0 ∧
      (startOp env vmName ws).calls =
        [Call.listVms] ++
          List.replicate (getVmIpWithRetry (env.ipEnvs vm.vmid) ws).snd
            (Call.agentQuery vm.vmid) := by
    intro env vmName ws vm hres hrun
    constructor
    · rcases startOp_filter_startPost env vmName ws with h | ⟨vm', ha, hb, h⟩
      · simp [OpResult.startCount, h]
      · rw [hres] at ha
        cases Except.ok.inj ha
        rw [hrun] at hb
        exact absurd hb (by decide)
    · by_cases hip : truthy (getVmIpWithRetry (env.ipEnvs vm.vmid) ws).fst = true <;>
        simp [startOp, hres, hrun, hip, OpResult.calls]
  refine ⟨h1, ?_, h3, ?_, ?_⟩
  · intro env vmName ws h
    rcases startOp_filter_startPost env vmName ws with hh | ⟨vm, ha, hb, hh⟩
    · rw [OpResult.startCount, hh] at h
      simp at h
    · exact ⟨vm, ha, hb⟩
  · intro env1 env2 vmName ws1 ws2 vm2 hres hrun
    have := (h3 env2 vmName ws2 vm2 hres hrun).1
    have := h1 env1 vmName ws1
    omega
  · intro env vmName ws vm hres hrun hip
    simp [startOp, hres, hrun, hip, truthy]

/-- C4 witness: with the first call on a stopped fleet reaching Running
and the second on the now-running fleet, the two calls issue at most one
start mutation; and on a running VM whose agent never answers, `start`
raises the missing-IP error. -/
theorem C4_start_mutation_only_when_stopped_witness :
    OpResult.startCount (startOp envStartFirst "alpha" 120) +
      OpResult.startCount (startOp envStartSecond "alpha" 120) ≤ 1 ∧
    startOp envRunNoIp "alpha" 120 =
      .fail [Call.listVms] [] (missingIpMsg "alpha" 100 120) :=
  ⟨C4_start_mutation_only_when_stopped.2.2.2.1 envStartFirst envStartSecond "alpha"
      120 120 { vmid := 100, name := "alpha", status := "running" } (by decide) rfl,
   C4_start_mutation_only_when_stopped.2.2.2.2 envRunNoIp "alpha" 120
      { vmid := 100, name := "alpha", status := "running" } (by decide) rfl rfl⟩

lemma syncGo_snd (env : HyperEnv) (l : List VmInfo) :
    (syncGo env l).snd = l.map (syncWriteOf env) := by
  induction l with
  | nil => rfl
  | cons rv rest ih =>
    by_cases hr : (rv.status == "running") = true <;>
      simp [syncGo, syncWriteOf, hr, ih]

lemma syncGo_calls_mem (env : HyperEnv) (l : List VmInfo) (c : Call)
    (h : c ∈ (syncGo env l).fst) :
    ∃ rv ∈ l, rv.status = "running" ∧ c = Call.agentQuery rv.vmid := by
  induction l with
  | nil => simp [syncGo] at h
  | cons rv rest ih =>
    rw [syncGo] at h
    simp only [List.mem_append] at h
    rcases h with h | h
    · by_cases hr : (rv.status == "running") = true
      · rw [if_pos hr] at h
        exact ⟨rv, List.mem_cons_self rv rest, by simpa using hr,
          List.eq_of_mem_replicate h⟩
      · rw [if_neg hr] at h
        simp at h
    · obtain ⟨rv', hmem, hrun, hc⟩ := ih h
      exact ⟨rv', List.mem_cons_of_mem _ hmem, hrun, hc⟩

/-- C8: `sync` writes exactly one resource version per VM returned by the
list endpoint (the write list is the VM list mapped through
`syncWriteOf`, hence of equal length and in order), records ip null for
every VM not in status "running", records the discovery result for
running VMs, and issues guest-agent queries only for running VMs. -/
theorem C8_sync_one_write_per_vm (env : HyperEnv) (r : ListResp)
    (hl : env.listResp = .ok r) (hok : r.ok = true) :
    syncOp env =
      OpResult.done (Call.listVms :: (syncGo env r.vms).fst)
        (r.vms.map (syncWriteOf env)) ∧
    (OpResult.writes (syncOp env)).length = r.vms.length ∧
    (∀ rv ∈ r.vms, rv.status ≠ "running" → (syncWriteOf env rv).ip = none) ∧
    (∀ rv ∈ r.vms, rv.status = "running" →
      (syncWriteOf env rv).ip = (getVmIpWithRetry (env.ipEnvs rv.vmid) 5).fst) ∧
    (∀ c ∈ (syncOp env).calls, c ≠ Call.listVms →
      ∃ rv ∈ r.vms, rv.status = "running" ∧ c = Call.agentQuery rv.vmid) := by
  have hop : syncOp env =
      OpResult.done (Call.listVms :: (syncGo env r.vms).fst)
        (r.vms.map (syncWriteOf env)) := by
    simp [syncOp, hl, hok, syncGo_snd]
  refine ⟨hop, ?_, ?_, ?_, ?_⟩
  · rw [hop]
    simp [OpResult.writes]
  · intro rv _ hnr
    simp [syncWriteOf, show (rv.status == "running") = false by simpa using hnr]
  · intro rv _ hr
    simp [syncWriteOf, hr]
  · intro c hc hne
    rw [hop] at hc
    simp only [OpResult.calls, List.mem_cons] at hc
    rcases hc with h | h
    · exact absurd h hne
    · exact syncGo_calls_mem env r.vms c h

/-- C8 witness: syncing a fleet of a running `alpha` and a stopped `beta`
writes exactly two versions — `alpha` with the discovered IP, `beta` with
ip null — and queries the agent only for `alpha`. -/
theorem C8_sync_one_write_per_vm_witness :
    syncOp envSync =
      OpResult.done (Call.listVms :: (syncGo envSync [vmRunning, vmBeta]).fst)
        ([vmRunning, vmBeta].map (syncWriteOf envSync)) ∧
    (OpResult.writes (syncOp envSync)).length = 2 ∧
    (∀ rv ∈ [vmRunning, vmBeta], rv.status ≠ "running" →
      (syncWriteOf envSync rv).ip = none) ∧
    (∀ rv ∈ [vmRunning, vmBeta], rv.status = "running" →
      (syncWriteOf envSync rv).ip = (getVmIpWithRetry (envSync.ipEnvs rv.vmid) 5).fst) ∧
    (∀ c ∈ (syncOp envSync).calls, c ≠ Call.listVms →
      ∃ rv ∈ [vmRunning, vmBeta], rv.status = "running" ∧
        c = Call.agentQuery rv.vmid) :=
  C8_sync_one_write_per_vm envSync
    { ok := true, httpStatus := 200, vms := [vmRunning, vmBeta] } rfl rfl

end Proxmox
